import Mathlib

/-!
Shallow embedding of `src/asreview/__main__.py`, the command-line dispatcher of
the ASReview project, together with proofs of the specified properties.

The module builds an `argparse` parser per mode ("oracle" / "simulate"),
parses `sys.argv`, and forwards the parsed configuration to an external review
function.  We embed the argument-parsing semantics that the module relies on:
tokens that look like options (a leading `-`, not a bare `-`, and not a
negative number, since this parser declares no numeric flags) select an option
spec; `type=int` converts with decimal integer parsing; `nargs="*"` greedily
consumes the following non-option tokens; `--` ends option processing;
defaults fill unset destinations; the single positional `dataset` is required.
Long-option abbreviation and the `--flag=value` spelling are not modelled;
all claims use whole-token spellings.
-/

namespace ASReview

/-- Decimal digit recognition, mirroring what `int()` accepts on the tokens
used here (an optional leading `-` followed by decimal digits). -/
def charToDigit (c : Char) : Option Nat :=
  if '0' ≤ c ∧ c ≤ '9' then some (c.toNat - 48) else none

/-- Accumulating decimal parse of a digit list; `none` on a non-digit. -/
def parseNatAux : List Char → Nat → Option Nat
  | [], acc => some acc
  | c :: cs, acc =>
    match charToDigit c with
    | none => none
    | some d => parseNatAux cs (acc * 10 + d)

/-- Python `int(token)` on the decimal tokens this CLI handles. -/
def parseIntToken (s : String) : Option Int :=
  match s.data with
  | [] => none
  | c :: cs =>
    if c = '-' then
      if cs = [] then none
      else (parseNatAux cs 0).map (fun n => -(Int.ofNat n))
    else (parseNatAux (c :: cs) 0).map (fun n => Int.ofNat n)

/-- Canonical decimal rendering of a digit. -/
def digitCharOf (d : Nat) : Char :=
  Char.ofNat (48 + d % 10)

/-- Big-endian decimal digits of `n`; the fuel bounds the recursion depth and
`fuel = n + 1` always suffices. -/
def natToDigitsAux : Nat → Nat → List Char
  | 0, _ => []
  | fuel + 1, n =>
    if n < 10 then [digitCharOf n]
    else natToDigitsAux fuel (n / 10) ++ [digitCharOf (n % 10)]

/-- Canonical decimal rendering of a natural number. -/
def natToToken (n : Nat) : String :=
  ⟨natToDigitsAux (n + 1) n⟩

/-- Canonical decimal rendering of an integer, as it appears on a command
line. -/
def intToToken (i : Int) : String :=
  if i < 0 then "-" ++ natToToken i.natAbs else natToToken i.toNat

/-- A token looks like an option flag when it starts with `-`, is not the bare
`-`, and is not a negative number (the parser declares no options that look
like negative numbers, so argparse treats `-12` as a value). -/
def looksLikeOption (t : String) : Bool :=
  match t.data with
  | [] => false
  | [_] => false
  | c :: rest => c == '-' && !(rest.all fun ch => (charToDigit ch).isSome)

/-- Runtime value of a parsed destination, as stored on the argparse
namespace: a string, an `int`, a list of `int` (for `nargs="*"`), or
Python `None`. -/
inductive Value where
  | str : String → Value
  | int : Int → Value
  | intList : List Int → Value
  | none : Value
deriving DecidableEq, Repr

/-- `type=` of an option: `str` or `int`. -/
inductive ArgType where
  | str
  | int
deriving DecidableEq, Repr

/-- `nargs` of an option: the default single value, or `"*"`. -/
inductive NargsKind where
  | one
  | star
deriving DecidableEq, Repr

/-- One `parser.add_argument(...)` call for an optional argument. -/
structure OptSpec where
  flags : List String
  dest : String
  ty : ArgType
  nargs : NargsKind
  dflt : Value
deriving DecidableEq, Repr

/-- The two modes handled by `_parse_arguments`. -/
inductive Mode where
  | oracle
  | simulate
deriving DecidableEq, Repr

/-- The subcommand token for each mode. -/
def modeString : Mode → String
  | .oracle => "oracle"
  | .simulate => "simulate"

/-- The optional arguments of `_parse_arguments` registered before the
simulate-only block, in registration order (CLI defaults from the module
constants: model `lstm_pool`, query strategy `rand_max`, balance strategy
`triple_balance`, 20 instances). -/
def commonSpecsHead : List OptSpec :=
  [ ⟨["-m", "--model"], "model", .str, .one, .str "lstm_pool"⟩,
    ⟨["-q", "--query_strategy"], "query_strategy", .str, .one, .str "rand_max"⟩,
    ⟨["-b", "--balance_strategy"], "balance_strategy", .str, .one,
      .str "triple_balance"⟩,
    ⟨["--n_instances"], "n_instances", .int, .one, .int 20⟩,
    ⟨["--n_queries"], "n_queries", .int, .one, .none⟩,
    ⟨["--embedding"], "embedding_fp", .str, .one, .none⟩,
    ⟨["--config_file"], "config_file", .str, .one, .none⟩,
    ⟨["-s", "--session-from-log"], "src_log_fp", .str, .one, .none⟩,
    ⟨["--prior_included"], "prior_included", .int, .star, .none⟩,
    ⟨["--prior_excluded"], "prior_excluded", .int, .star, .none⟩ ]

/-- The simulate-only arguments (sampled prior counts, default 10 each). -/
def simulateOnlySpecs : List OptSpec :=
  [ ⟨["--n_prior_included"], "n_prior_included", .int, .one, .int 10⟩,
    ⟨["--n_prior_excluded"], "n_prior_excluded", .int, .one, .int 10⟩ ]

/-- The optional arguments registered after the simulate-only block. -/
def commonSpecsTail : List OptSpec :=
  [ ⟨["--log_file", "-l"], "log_file", .str, .one, .none⟩,
    ⟨["--save_model"], "save_model_fp", .str, .one, .none⟩,
    ⟨["--verbose", "-v"], "verbose", .int, .one, .int 1⟩ ]

/-- All optional arguments of the parser `_parse_arguments(mode)` builds, in
registration order. -/
def specsFor (m : Mode) : List OptSpec :=
  commonSpecsHead ++
    (match m with
     | .oracle => []
     | .simulate => simulateOnlySpecs) ++
  commonSpecsTail

/-- Failure modes of argparse's `parse_args`; every one prints usage and
terminates the process with a non-zero status. -/
inductive ParseErr where
  | unrecognizedOption
  | missingValue
  | badValue
  | missingDataset
  | extraPositional
  | fuelExhausted
deriving DecidableEq, Repr

deriving instance DecidableEq for Except

/-- Find the option spec one of whose flag spellings is the token. -/
def findSpec (specs : List OptSpec) (tok : String) : Option OptSpec :=
  specs.find? (fun sp => sp.flags.contains tok)

/-- Convert one option value per its declared `type=`. -/
def convertOne (ty : ArgType) (s : String) : Option Value :=
  match ty with
  | .str => some (Value.str s)
  | .int => (parseIntToken s).map Value.int

/-- One pass over the argument vector: options set their destination (later
occurrences override), non-option tokens accumulate as positionals, `--` ends
option processing.  `fuel ≥ toks.length` makes the fuel case unreachable. -/
def parseLoop (specs : List OptSpec) :
    Nat → List String → List (String × Value) → List String →
    Except ParseErr (List (String × Value) × List String)
  | _, [], acc, pos => .ok (acc, pos)
  | 0, _ :: _, _, _ => .error .fuelExhausted
  | fuel + 1, tok :: rest, acc, pos =>
    if looksLikeOption tok then
      if tok = "--" then .ok (acc, pos ++ rest)
      else
        match findSpec specs tok with
        | Option.none => .error .unrecognizedOption
        | some sp =>
          match sp.nargs with
          | .one =>
            match rest with
            | [] => .error .missingValue
            | v :: rest2 =>
              if looksLikeOption v then .error .missingValue
              else
                match convertOne sp.ty v with
                | Option.none => .error .badValue
                | some val =>
                  parseLoop specs fuel rest2 (acc ++ [(sp.dest, val)]) pos
          | .star =>
            let vals := rest.takeWhile (fun t => !(looksLikeOption t))
            let rest2 := rest.dropWhile (fun t => !(looksLikeOption t))
            match vals.mapM parseIntToken with
            | Option.none => .error .badValue
            | some ns =>
              parseLoop specs fuel rest2 (acc ++ [(sp.dest, Value.intList ns)]) pos
    else
      parseLoop specs fuel rest acc (pos ++ [tok])

/-- Final value of a destination: the last parsed occurrence, else the
declared default. -/
def finalValue (sp : OptSpec) (assigns : List (String × Value)) : Value :=
  match (assigns.filter (fun kv => kv.1 == sp.dest)).getLast? with
  | some kv => kv.2
  | Option.none => sp.dflt

/-- `parser.parse_args(tokens)` for the mode parser: the resulting namespace
as an insertion-ordered association list, `dataset` first (it is registered
first), then every optional destination. -/
def parseArgs (m : Mode) (toks : List String) :
    Except ParseErr (List (String × Value)) :=
  match parseLoop (specsFor m) toks.length toks [] [] with
  | .error e => .error e
  | .ok (assigns, pos) =>
    match pos with
    | [] => .error .missingDataset
    | [p] =>
      .ok (("dataset", Value.str p) ::
        (specsFor m).map (fun sp => (sp.dest, finalValue sp assigns)))
    | _ :: _ :: _ => .error .extraPositional

/-- A call to one of the external review functions: the positional dataset
path and the remaining configuration as keyword arguments. -/
inductive ReviewCall where
  | oracle : String → List (String × Value) → ReviewCall
  | simulate : String → List (String × Value) → ReviewCall
deriving DecidableEq, Repr

/-- Observable outcome of one process invocation. -/
structure MainResult where
  calls : List ReviewCall
  output : List String
  exitCode : Nat
  printedUsage : Bool
deriving DecidableEq, Repr

/-- The result of an argparse failure: usage on stderr, exit status 2,
nothing else happens. -/
def usageExit : MainResult :=
  ⟨[], [], 2, true⟩

/-- `args_dict.pop("dataset")`: the popped path. -/
def datasetOf (cfg : List (String × Value)) : String :=
  match cfg.lookup "dataset" with
  | some (Value.str s) => s
  | _ => ""

/-- `args_dict` after popping `dataset`: the keyword arguments forwarded to
the review function. -/
def kwargsOf (cfg : List (String × Value)) : List (String × Value) :=
  cfg.filter (fun kv => kv.1 != "dataset")

/-- `_review_oracle()`: parse `sys.argv[2:]` with the oracle parser, pop the
dataset path, call `review_oracle(path, **args_dict)`. -/
def reviewOracleCLI (toks : List String) : MainResult :=
  match parseArgs .oracle toks with
  | .error _ => usageExit
  | .ok cfg => ⟨[ReviewCall.oracle (datasetOf cfg) (kwargsOf cfg)], [], 0, false⟩

/-- `_review_simulate()`: parse `sys.argv[2:]` with the simulate parser, pop
the dataset path, call `review_simulate(path, **args_dict)`. -/
def reviewSimulateCLI (toks : List String) : MainResult :=
  match parseArgs .simulate toks with
  | .error _ => usageExit
  | .ok cfg =>
    ⟨[ReviewCall.simulate (datasetOf cfg) (kwargsOf cfg)], [], 0, false⟩

/-- Modelled from the spec: `AVAILABLE_MODI` is imported from
`asreview.config`, which is absent from the provided source tree; the spec
describes it as the module-level read-only list of the two recognized mode
names. -/
def AVAILABLE_MODI : List String :=
  ["oracle", "simulate"]

/-- Modelled from the spec: `__version__` is imported from the `asreview`
package, absent from the provided source tree; only its identity as "the
version string" matters to the claims. -/
def asreview_version : String :=
  "0.0.1"

/-- The literal help hint printed by `main` with no subcommand. -/
def helpHint : String :=
  "Use 'asr -h' to view help."

/-- Positional-only tail of the top-level parse, entered after `--`. -/
def parseTopPos : List String → Bool → Option Bool →
    Except ParseErr (Bool × Option Bool)
  | [], ver, sub => .ok (ver, sub)
  | t :: rest, ver, Option.none =>
    parseTopPos rest ver (some (AVAILABLE_MODI.contains t))
  | _ :: _, _, some _ => .error .extraPositional

/-- The top-level parser of `main`: a `store_true` flag `-V` alias
`--version`, and an
optional positional `subcommand` whose `type=` converter
(`lambda x: isinstance(x, str) and x in AVAILABLE_MODI`) returns a boolean,
so a supplied subcommand token is stored as a `bool`, never as the string. -/
def parseTopLoop : Nat → List String → Bool → Option Bool →
    Except ParseErr (Bool × Option Bool)
  | _, [], ver, sub => .ok (ver, sub)
  | 0, _ :: _, _, _ => .error .fuelExhausted
  | fuel + 1, tok :: rest, ver, sub =>
    if tok = "-V" || tok = "--version" then parseTopLoop fuel rest true sub
    else if looksLikeOption tok then
      if tok = "--" then parseTopPos rest ver sub
      else .error .unrecognizedOption
    else
      match sub with
      | Option.none =>
        parseTopLoop fuel rest ver (some (AVAILABLE_MODI.contains tok))
      | some _ => .error .extraPositional

/-- `parse_args()` of the top-level parser on `sys.argv[1:]`. -/
def parseTop (toks : List String) : Except ParseErr (Bool × Option Bool) :=
  parseTopLoop toks.length toks false Option.none

/-- The fallback branch of `main`: print the version and return if
`--version` was given, print the help hint if no subcommand token was
supplied, otherwise print nothing. -/
def topLevel (toks : List String) : MainResult :=
  match parseTop toks with
  | .error _ => usageExit
  | .ok (ver, sub) =>
    if ver then ⟨[], [asreview_version], 0, false⟩
    else
      match sub with
      | Option.none => ⟨[], [helpHint], 0, false⟩
      | some _ => ⟨[], [], 0, false⟩

/-- `main()`: dispatch on `sys.argv[1]` — "oracle" and "simulate" go to the
mode CLIs on `sys.argv[2:]`, anything else to the top-level parser on
`sys.argv[1:]`. -/
def asreviewMain (argv : List String) : MainResult :=
  match argv with
  | _prog :: sub :: rest =>
    if sub = "oracle" then reviewOracleCLI rest
    else if sub = "simulate" then reviewSimulateCLI rest
    else topLevel (sub :: rest)
  | _ => topLevel []

/-- Outcome of the deprecated entry point: whether the deprecation warning
was emitted, and the dispatch result. -/
structure DeprResult where
  deprecationWarned : Bool
  result : MainResult
deriving DecidableEq, Repr

/-- `main_depr()`: emit the `VisibleDeprecationWarning` about the renamed
`asr` entry point, then run `main()` unchanged. -/
def mainDepr (argv : List String) : DeprResult :=
  ⟨true, asreviewMain argv⟩

/-- The key set of the configuration produced by the mode parser: `dataset`
followed by every optional destination, in registration order. -/
def configKeys (m : Mode) : List String :=
  "dataset" :: (specsFor m).map OptSpec.dest

/-- The positional path argument of a review call. -/
def callPath : ReviewCall → String
  | .oracle p _ => p
  | .simulate p _ => p

/-- The keyword-argument configuration of a review call. -/
def callKwargs : ReviewCall → List (String × Value)
  | .oracle _ kw => kw
  | .simulate _ kw => kw

/-- Which external review function a call invokes. -/
def callMode : ReviewCall → Mode
  | .oracle _ _ => .oracle
  | .simulate _ _ => .simulate

/-! ### Decimal-token lemmas -/

theorem charToDigit_digitCharOf {d : Nat} (h : d < 10) :
    charToDigit (digitCharOf d) = some d := by
  interval_cases d <;> decide

theorem charToDigit_ne_dash {c : Char} {d : Nat}
    (h : charToDigit c = some d) : c ≠ '-' := by
  intro hc
  subst hc
  have hnone : charToDigit '-' = Option.none := by decide
  rw [hnone] at h
  exact Option.noConfusion h

theorem parseNatAux_append (xs ys : List Char) (acc : Nat) :
    parseNatAux (xs ++ ys) acc =
      (parseNatAux xs acc).bind (fun a => parseNatAux ys a) := by
  induction xs generalizing acc with
  | nil => rfl
  | cons c cs ih =>
    simp only [List.cons_append, parseNatAux]
    cases charToDigit c with
    | none => rfl
    | some d => exact ih _

theorem natToDigitsAux_ne_nil (fuel n : Nat) (hf : 1 ≤ fuel) :
    natToDigitsAux fuel n ≠ [] := by
  cases fuel with
  | zero => omega
  | succ fuel =>
    simp only [natToDigitsAux]
    split
    · exact List.cons_ne_nil _ _
    · intro h
      exact List.cons_ne_nil _ _ (List.append_eq_nil.mp h).2

theorem natToDigitsAux_digits (fuel : Nat) :
    ∀ n, ∀ c ∈ natToDigitsAux fuel n, (charToDigit c).isSome := by
  induction fuel with
  | zero => simp [natToDigitsAux]
  | succ fuel ih =>
    intro n c hc
    simp only [natToDigitsAux] at hc
    split at hc
    · simp only [List.mem_singleton] at hc
      subst hc
      rw [charToDigit_digitCharOf (by omega)]
      rfl
    · rcases List.mem_append.mp hc with h | h
      · exact ih _ c h
      · simp only [List.mem_singleton] at h
        subst h
        rw [charToDigit_digitCharOf (Nat.mod_lt n (by norm_num))]
        rfl

theorem parseNatAux_natToDigitsAux (fuel : Nat) :
    ∀ n acc, 1 ≤ fuel → n < 10 ^ fuel →
      parseNatAux (natToDigitsAux fuel n) acc =
        some (acc * 10 ^ (natToDigitsAux fuel n).length + n) := by
  induction fuel with
  | zero => omega
  | succ fuel ih =>
    intro n acc _ hn
    by_cases h10 : n < 10
    · simp [natToDigitsAux, h10, parseNatAux, charToDigit_digitCharOf h10]
    · have hfuel1 : 1 ≤ fuel := by
        rcases Nat.eq_zero_or_pos fuel with h | h
        · subst h
          norm_num at hn
          omega
        · exact h
      have hdiv : n / 10 < 10 ^ fuel := by
        rw [Nat.div_lt_iff_lt_mul (by norm_num)]
        calc n < 10 ^ (fuel + 1) := hn
          _ = 10 ^ fuel * 10 := by ring
      simp only [natToDigitsAux, if_neg h10]
      rw [parseNatAux_append, ih _ acc hfuel1 hdiv]
      simp only [Option.some_bind, parseNatAux,
        charToDigit_digitCharOf (Nat.mod_lt n (by norm_num)),
        List.length_append, List.length_singleton]
      congr 1
      have h1 : (acc * 10 ^ (natToDigitsAux fuel (n / 10)).length + n / 10) * 10
            + n % 10
          = acc * (10 ^ (natToDigitsAux fuel (n / 10)).length * 10)
            + (10 * (n / 10) + n % 10) := by
        ring
      rw [h1, Nat.div_add_mod, ← pow_succ]

theorem natToToken_data (n : Nat) :
    (natToToken n).data = natToDigitsAux (n + 1) n := rfl

theorem lt_ten_pow_succ (n : Nat) : n < 10 ^ (n + 1) :=
  lt_of_lt_of_le (Nat.lt_pow_self (by norm_num) n)
    (Nat.pow_le_pow_right (by norm_num) (Nat.le_succ n))

theorem parseNatAux_natToToken (n : Nat) :
    parseNatAux (natToToken n).data 0 = some n := by
  rw [natToToken_data,
    parseNatAux_natToDigitsAux (n + 1) n 0 (by omega) (lt_ten_pow_succ n)]
  simp

theorem parseIntToken_eq_cons (c : Char) (cs : List Char) (s : String)
    (h : s.data = c :: cs) :
    parseIntToken s =
      if c = '-' then
        if cs = [] then Option.none
        else (parseNatAux cs 0).map (fun n => -(Int.ofNat n))
      else (parseNatAux (c :: cs) 0).map (fun n => Int.ofNat n) := by
  unfold parseIntToken
  rw [h]

theorem looksLikeOption_eq_cons2 (c c2 : Char) (cs : List Char) (s : String)
    (h : s.data = c :: c2 :: cs) :
    looksLikeOption s =
      (c == '-' && !((c2 :: cs).all fun ch => (charToDigit ch).isSome)) := by
  unfold looksLikeOption
  rw [h]

theorem looksLikeOption_eq_one (c : Char) (s : String) (h : s.data = [c]) :
    looksLikeOption s = false := by
  unfold looksLikeOption
  rw [h]

theorem intToToken_data_neg (i : Int) (hi : i < 0) :
    (intToToken i).data = '-' :: (natToToken i.natAbs).data := by
  unfold intToToken
  rw [if_pos hi, String.data_append]
  rfl

theorem intToToken_data_nonneg (i : Int) (hi : ¬ i < 0) :
    (intToToken i).data = (natToToken i.toNat).data := by
  unfold intToToken
  rw [if_neg hi]

theorem intToToken_roundtrip (i : Int) :
    parseIntToken (intToToken i) = some i := by
  by_cases hi : i < 0
  · have hne : (natToToken i.natAbs).data ≠ [] :=
      natToDigitsAux_ne_nil _ _ (by omega)
    rw [parseIntToken_eq_cons '-' (natToToken i.natAbs).data _
      (intToToken_data_neg i hi)]
    rw [if_pos rfl, if_neg hne, parseNatAux_natToToken, Option.map_some']
    congr 1
    simp only [Int.ofNat_eq_coe]
    omega
  · have hne : (natToToken i.toNat).data ≠ [] :=
      natToDigitsAux_ne_nil _ _ (by omega)
    obtain ⟨c, cs, hcons⟩ := List.exists_cons_of_ne_nil hne
    have hcdig : (charToDigit c).isSome := by
      apply natToDigitsAux_digits (i.toNat + 1) i.toNat
      rw [← natToToken_data, hcons]
      exact List.mem_cons_self _ _
    obtain ⟨d, hd⟩ := Option.isSome_iff_exists.mp hcdig
    have hcne : c ≠ '-' := charToDigit_ne_dash hd
    rw [parseIntToken_eq_cons c cs _ ((intToToken_data_nonneg i hi).trans hcons)]
    rw [if_neg hcne, ← hcons, parseNatAux_natToToken, Option.map_some']
    congr 1
    simp only [Int.ofNat_eq_coe]
    omega

theorem looksLikeOption_intToToken (i : Int) :
    looksLikeOption (intToToken i) = false := by
  by_cases hi : i < 0
  · have hne : (natToToken i.natAbs).data ≠ [] :=
      natToDigitsAux_ne_nil _ _ (by omega)
    obtain ⟨c, cs, hcons⟩ := List.exists_cons_of_ne_nil hne
    have halldig : ∀ ch ∈ (natToToken i.natAbs).data,
        (charToDigit ch).isSome := by
      rw [natToToken_data]
      exact natToDigitsAux_digits _ _
    rw [looksLikeOption_eq_cons2 '-' c cs _
      ((intToToken_data_neg i hi).trans (by rw [hcons]))]
    simp only [Bool.and_eq_false_iff]
    right
    simp only [Bool.not_eq_false']
    apply List.all_eq_true.mpr
    intro ch hch
    exact halldig ch (by rw [hcons]; exact hch)
  · have hne : (natToToken i.toNat).data ≠ [] :=
      natToDigitsAux_ne_nil _ _ (by omega)
    obtain ⟨c, cs, hcons⟩ := List.exists_cons_of_ne_nil hne
    have hcdig : (charToDigit c).isSome := by
      apply natToDigitsAux_digits (i.toNat + 1) i.toNat
      rw [← natToToken_data, hcons]
      exact List.mem_cons_self _ _
    obtain ⟨d, hd⟩ := Option.isSome_iff_exists.mp hcdig
    have hcne : c ≠ '-' := charToDigit_ne_dash hd
    cases cs with
    | nil =>
      exact looksLikeOption_eq_one c _ ((intToToken_data_nonneg i hi).trans hcons)
    | cons c2 cs2 =>
      rw [looksLikeOption_eq_cons2 c c2 cs2 _
        ((intToToken_data_nonneg i hi).trans hcons)]
      simp only [Bool.and_eq_false_iff]
      left
      simp [hcne]

/-! ### Parsing lemmas shared by the claims -/

theorem mapM_loop_parseIntToken (l : List Int) (acc : List Int) :
    List.mapM.loop parseIntToken (l.map intToToken) acc
      = some (acc.reverse ++ l) := by
  induction l generalizing acc with
  | nil => simp [List.mapM.loop]
  | cons x xs ih => simp [List.mapM.loop, intToToken_roundtrip, ih]

theorem takeWhile_map_intToToken (l : List Int) :
    (l.map intToToken).takeWhile (fun t => !(looksLikeOption t))
      = l.map intToToken := by
  induction l with
  | nil => rfl
  | cons x xs ih =>
    simp [List.takeWhile_cons, looksLikeOption_intToToken, ih]

theorem dropWhile_map_intToToken (l : List Int) :
    (l.map intToToken).dropWhile (fun t => !(looksLikeOption t)) = [] := by
  induction l with
  | nil => rfl
  | cons x xs ih =>
    simp [List.dropWhile_cons, looksLikeOption_intToToken, ih]

theorem convertOne_int_five :
    convertOne ArgType.int "5" = some (Value.int 5) := by decide

/-! ### The claims -/

/-- C1: for every invocation `asreview oracle <path>` with no other flags,
`main` calls the oracle review function exactly once, with the dataset path
as the positional argument and every other option at its documented default
(model `lstm_pool`, query strategy `rand_max`, balance strategy
`triple_balance`, 20 instances, verbosity 1, every optional path and prior
list `None`), and no simulate-only fields are present. -/
theorem C1_oracle_default_dispatch (path : String)
    (h : looksLikeOption path = false) :
    asreviewMain ["asreview", "oracle", path] =
      { calls := [ReviewCall.oracle path
          [("model", Value.str "lstm_pool"),
           ("query_strategy", Value.str "rand_max"),
           ("balance_strategy", Value.str "triple_balance"),
           ("n_instances", Value.int 20),
           ("n_queries", Value.none),
           ("embedding_fp", Value.none),
           ("config_file", Value.none),
           ("src_log_fp", Value.none),
           ("prior_included", Value.none),
           ("prior_excluded", Value.none),
           ("log_file", Value.none),
           ("save_model_fp", Value.none),
           ("verbose", Value.int 1)]],
        output := [], exitCode := 0, printedUsage := false } := by
  simp [asreviewMain, reviewOracleCLI, parseArgs, parseLoop, h, specsFor,
    commonSpecsHead, commonSpecsTail, simulateOnlySpecs, finalValue,
    datasetOf, kwargsOf, List.lookup]

/-- Witness for C1 at the concrete path `data.csv`. -/
theorem C1_oracle_default_dispatch_witness :
    looksLikeOption "data.csv" = false
    ∧ asreviewMain ["asreview", "oracle", "data.csv"] =
      { calls := [ReviewCall.oracle "data.csv"
          [("model", Value.str "lstm_pool"),
           ("query_strategy", Value.str "rand_max"),
           ("balance_strategy", Value.str "triple_balance"),
           ("n_instances", Value.int 20),
           ("n_queries", Value.none),
           ("embedding_fp", Value.none),
           ("config_file", Value.none),
           ("src_log_fp", Value.none),
           ("prior_included", Value.none),
           ("prior_excluded", Value.none),
           ("log_file", Value.none),
           ("save_model_fp", Value.none),
           ("verbose", Value.int 1)]],
        output := [], exitCode := 0, printedUsage := false } :=
  ⟨by decide, C1_oracle_default_dispatch "data.csv" (by decide)⟩

/-- C2: for every invocation `asreview simulate <path> --n_instances 5`, the
configuration forwarded to the simulate review function has
`n_instances = 5` and every other field at its documented default,
including the simulate-only sampled prior counts at 10. -/
theorem C2_simulate_n_instances_five (path : String)
    (h : looksLikeOption path = false) :
    asreviewMain ["asreview", "simulate", path, "--n_instances", "5"] =
      { calls := [ReviewCall.simulate path
          [("model", Value.str "lstm_pool"),
           ("query_strategy", Value.str "rand_max"),
           ("balance_strategy", Value.str "triple_balance"),
           ("n_instances", Value.int 5),
           ("n_queries", Value.none),
           ("embedding_fp", Value.none),
           ("config_file", Value.none),
           ("src_log_fp", Value.none),
           ("prior_included", Value.none),
           ("prior_excluded", Value.none),
           ("n_prior_included", Value.int 10),
           ("n_prior_excluded", Value.int 10),
           ("log_file", Value.none),
           ("save_model_fp", Value.none),
           ("verbose", Value.int 1)]],
        output := [], exitCode := 0, printedUsage := false } := by
  simp +decide [asreviewMain, reviewSimulateCLI, parseArgs, parseLoop, h,
    specsFor, commonSpecsHead, commonSpecsTail, simulateOnlySpecs, finalValue,
    findSpec, convertOne_int_five, datasetOf, kwargsOf, List.lookup]

/-- Witness for C2 at the concrete path `data.csv`. -/
theorem C2_simulate_n_instances_five_witness :
    looksLikeOption "data.csv" = false
    ∧ asreviewMain ["asreview", "simulate", "data.csv", "--n_instances", "5"] =
      { calls := [ReviewCall.simulate "data.csv"
          [("model", Value.str "lstm_pool"),
           ("query_strategy", Value.str "rand_max"),
           ("balance_strategy", Value.str "triple_balance"),
           ("n_instances", Value.int 5),
           ("n_queries", Value.none),
           ("embedding_fp", Value.none),
           ("config_file", Value.none),
           ("src_log_fp", Value.none),
           ("prior_included", Value.none),
           ("prior_excluded", Value.none),
           ("n_prior_included", Value.int 10),
           ("n_prior_excluded", Value.int 10),
           ("log_file", Value.none),
           ("save_model_fp", Value.none),
           ("verbose", Value.int 1)]],
        output := [], exitCode := 0, printedUsage := false } :=
  ⟨by decide, C2_simulate_n_instances_five "data.csv" (by decide)⟩

/-- C3 counterexample: with first argument `foo` (present, neither `oracle`
nor `simulate`, no version flag) `main` prints nothing at all — the claim
that the help hint is printed is false, because the top-level parser's type
converter stores the boolean `False` for the subcommand, which is not
`None`. -/
theorem C3_counterexample_foo :
    asreviewMain ["asr", "foo"] =
      { calls := [], output := [], exitCode := 0, printedUsage := false }
    ∧ (asreviewMain ["asr", "foo"]).output ≠ [helpHint] := by
  constructor
  · rfl
  · decide

/-- C3 amended: for every invocation whose first argument is a positional
(non-option-looking) token other than `oracle` and `simulate`, `main` falls
back to the top-level parser, which consumes the token as the subcommand
placeholder (converted to a boolean by its type validator), prints nothing,
and exits with code 0; the help hint would be printed only when no
subcommand token is supplied. -/
theorem C3_amended_silent_fallback (prog tok : String)
    (h1 : looksLikeOption tok = false) (h2 : tok ≠ "oracle")
    (h3 : tok ≠ "simulate") :
    asreviewMain [prog, tok] =
      { calls := [], output := [], exitCode := 0, printedUsage := false } := by
  have hV : tok ≠ "-V" := by
    rintro rfl
    exact absurd h1 (by decide)
  have hVer : tok ≠ "--version" := by
    rintro rfl
    exact absurd h1 (by decide)
  simp [asreviewMain, h2, h3, topLevel, parseTop, parseTopLoop, hV, hVer, h1]

/-- Witness for the amended C3 at the concrete token `foo`. -/
theorem C3_amended_silent_fallback_witness :
    looksLikeOption "foo" = false ∧ "foo" ≠ "oracle" ∧ "foo" ≠ "simulate"
    ∧ asreviewMain ["asr", "foo"] =
      { calls := [], output := [], exitCode := 0, printedUsage := false } :=
  ⟨by decide, by decide, by decide,
    C3_amended_silent_fallback "asr" "foo" (by decide) (by decide) (by decide)⟩

/-- C4: the key set of every successfully parsed configuration is determined
by the mode alone; the simulate parser accepts `--n_prior_included` and
`--n_prior_excluded` with default 10 each, and the oracle parser rejects
both flags as unrecognized. -/
theorem C4_field_set_by_mode (m : Mode) (toks : List String)
    (cfg : List (String × Value)) (h : parseArgs m toks = .ok cfg) :
    cfg.map Prod.fst = configKeys m
    ∧ "n_prior_included" ∈ configKeys Mode.simulate
    ∧ "n_prior_excluded" ∈ configKeys Mode.simulate
    ∧ "n_prior_included" ∉ configKeys Mode.oracle
    ∧ "n_prior_excluded" ∉ configKeys Mode.oracle
    ∧ (parseArgs Mode.simulate ["d"]).map
        (fun c => (c.lookup "n_prior_included", c.lookup "n_prior_excluded"))
        = .ok (some (Value.int 10), some (Value.int 10))
    ∧ (parseArgs Mode.simulate ["d", "--n_prior_included", "7"]).map
        (fun c => c.lookup "n_prior_included") = .ok (some (Value.int 7))
    ∧ (parseArgs Mode.simulate ["d", "--n_prior_excluded", "7"]).map
        (fun c => c.lookup "n_prior_excluded") = .ok (some (Value.int 7))
    ∧ parseArgs Mode.oracle ["d", "--n_prior_included", "7"]
        = .error ParseErr.unrecognizedOption
    ∧ parseArgs Mode.oracle ["d", "--n_prior_excluded", "7"]
        = .error ParseErr.unrecognizedOption := by
  refine ⟨?_, by decide, by decide, by decide, by decide, by decide,
    by decide, by decide, by decide, by decide⟩
  unfold parseArgs at h
  split at h
  · exact absurd h (by simp)
  · split at h
    · exact absurd h (by simp)
    · injection h with h'
      subst h'
      simp [configKeys]
    · exact absurd h (by simp)

/-- Witness for C4 at the concrete parse `simulate ["d"]`. -/
theorem C4_field_set_by_mode_witness :
    parseArgs Mode.simulate ["d"] =
      Except.ok [("dataset", Value.str "d"),
        ("model", Value.str "lstm_pool"),
        ("query_strategy", Value.str "rand_max"),
        ("balance_strategy", Value.str "triple_balance"),
        ("n_instances", Value.int 20),
        ("n_queries", Value.none),
        ("embedding_fp", Value.none),
        ("config_file", Value.none),
        ("src_log_fp", Value.none),
        ("prior_included", Value.none),
        ("prior_excluded", Value.none),
        ("n_prior_included", Value.int 10),
        ("n_prior_excluded", Value.int 10),
        ("log_file", Value.none),
        ("save_model_fp", Value.none),
        ("verbose", Value.int 1)]
    ∧ ([("dataset", Value.str "d"),
        ("model", Value.str "lstm_pool"),
        ("query_strategy", Value.str "rand_max"),
        ("balance_strategy", Value.str "triple_balance"),
        ("n_instances", Value.int 20),
        ("n_queries", Value.none),
        ("embedding_fp", Value.none),
        ("config_file", Value.none),
        ("src_log_fp", Value.none),
        ("prior_included", Value.none),
        ("prior_excluded", Value.none),
        ("n_prior_included", Value.int 10),
        ("n_prior_excluded", Value.int 10),
        ("log_file", Value.none),
        ("save_model_fp", Value.none),
        ("verbose", Value.int 1)] : List (String × Value)).map Prod.fst
      = configKeys Mode.simulate :=
  ⟨by decide,
    (C4_field_set_by_mode Mode.simulate ["d"] _ (by decide)).1⟩

/-- C5: for every mode, passing `--prior_included i1 .. ik` (any list of
integers, rendered in decimal) forwards exactly the ordered sequence
`[i1, .., ik]` for that field to the review function, unchanged in content
and order; the same holds for `--prior_excluded`. -/
theorem C5_prior_lists_forwarded (m : Mode) (path : String)
    (h : looksLikeOption path = false) (l : List Int) :
    ((asreviewMain ("asreview" :: modeString m :: path ::
        "--prior_included" :: l.map intToToken)).calls.map
          (fun c => (callMode c, callPath c,
            (callKwargs c).lookup "prior_included"))
        = [(m, path, some (Value.intList l))])
    ∧ ((asreviewMain ("asreview" :: modeString m :: path ::
        "--prior_excluded" :: l.map intToToken)).calls.map
          (fun c => (callMode c, callPath c,
            (callKwargs c).lookup "prior_excluded"))
        = [(m, path, some (Value.intList l))]) := by
  cases m <;>
    constructor <;>
      simp +decide [asreviewMain, reviewOracleCLI, reviewSimulateCLI,
        modeString, callMode, callPath, callKwargs, parseArgs, parseLoop, h,
        specsFor, commonSpecsHead, commonSpecsTail, simulateOnlySpecs,
        finalValue, findSpec, datasetOf, kwargsOf, takeWhile_map_intToToken,
        dropWhile_map_intToToken, List.mapM, mapM_loop_parseIntToken,
        List.lookup]

/-- Witness for C5 at oracle mode, path `data.csv`, list `[1, 2, 3]`. -/
theorem C5_prior_lists_forwarded_witness :
    looksLikeOption "data.csv" = false
    ∧ (((asreviewMain ("asreview" :: modeString Mode.oracle :: "data.csv" ::
          "--prior_included" :: ([1, 2, 3] : List Int).map intToToken)).calls.map
            (fun c => (callMode c, callPath c,
              (callKwargs c).lookup "prior_included"))
          = [(Mode.oracle, "data.csv", some (Value.intList [1, 2, 3]))])
      ∧ ((asreviewMain ("asreview" :: modeString Mode.oracle :: "data.csv" ::
          "--prior_excluded" :: ([1, 2, 3] : List Int).map intToToken)).calls.map
            (fun c => (callMode c, callPath c,
              (callKwargs c).lookup "prior_excluded"))
          = [(Mode.oracle, "data.csv", some (Value.intList [1, 2, 3]))])) :=
  ⟨by decide,
    C5_prior_lists_forwarded Mode.oracle "data.csv" (by decide) [1, 2, 3]⟩

/-- C6: for every program name, invoking with the single argument `-V` (or
`--version`) prints exactly the version string, invokes neither review
function, and exits with code 0. -/
theorem C6_version_flag (prog : String) :
    asreviewMain [prog, "-V"] =
      { calls := [], output := [asreview_version], exitCode := 0,
        printedUsage := false }
    ∧ asreviewMain [prog, "--version"] =
      { calls := [], output := [asreview_version], exitCode := 0,
        printedUsage := false } :=
  ⟨rfl, rfl⟩

/-- C7: for every program name, invoking with no arguments at all prints the
literal help hint, invokes no review function, and exits with code 0. -/
theorem C7_no_args_help_hint (prog : String) :
    asreviewMain [prog] =
      { calls := [], output := [helpHint], exitCode := 0,
        printedUsage := false } :=
  rfl

/-- C8: for every oracle or simulate invocation whose remaining arguments the
mode parser rejects, `main` prints usage, exits with status 2, and calls no
review function; the module does not intercept the failure. -/
theorem C8_parse_failure_usage_exit (m : Mode) (rest : List String)
    (e : ParseErr) (h : parseArgs m rest = .error e) :
    asreviewMain ("asreview" :: modeString m :: rest) =
      { calls := [], output := [], exitCode := 2, printedUsage := true } := by
  cases m <;>
    simp [asreviewMain, reviewOracleCLI, reviewSimulateCLI, modeString, h,
      usageExit]

/-- Witness for C8: a missing dataset in oracle mode and a non-integer value
for an integer flag in simulate mode. -/
theorem C8_parse_failure_usage_exit_witness :
    parseArgs Mode.oracle [] = Except.error ParseErr.missingDataset
    ∧ parseArgs Mode.simulate ["d", "--n_instances", "abc"]
        = Except.error ParseErr.badValue
    ∧ asreviewMain ["asreview", "oracle"] =
        { calls := [], output := [], exitCode := 2, printedUsage := true }
    ∧ asreviewMain ["asreview", "simulate", "d", "--n_instances", "abc"] =
        { calls := [], output := [], exitCode := 2, printedUsage := true } :=
  ⟨by decide, by decide,
    C8_parse_failure_usage_exit Mode.oracle [] ParseErr.missingDataset
      (by decide),
    C8_parse_failure_usage_exit Mode.simulate ["d", "--n_instances", "abc"]
      ParseErr.badValue (by decide)⟩

/-- C9: on every argument vector, the deprecated entry point first emits the
visible deprecation warning and then behaves exactly as `main` on the same
argument vector. -/
theorem C9_main_depr_refines_main (argv : List String) :
    (mainDepr argv).deprecationWarned = true
    ∧ (mainDepr argv).result = asreviewMain argv :=
  ⟨rfl, rfl⟩

/-- C10: in both modes, passing `--prior_included` (or `--prior_excluded`)
with zero following values forwards the empty sequence for that field, which
is distinct from omitting the flag, in which case the forwarded value is
Python `None`. -/
theorem C10_empty_prior_vs_absent (m : Mode) (path : String)
    (h : looksLikeOption path = false) :
    ((asreviewMain ["asreview", modeString m, path, "--prior_included"]).calls.map
        (fun c => (callPath c, (callKwargs c).lookup "prior_included"))
      = [(path, some (Value.intList []))])
    ∧ ((asreviewMain ["asreview", modeString m, path, "--prior_excluded"]).calls.map
        (fun c => (callPath c, (callKwargs c).lookup "prior_excluded"))
      = [(path, some (Value.intList []))])
    ∧ ((asreviewMain ["asreview", modeString m, path]).calls.map
        (fun c => ((callKwargs c).lookup "prior_included",
          (callKwargs c).lookup "prior_excluded"))
      = [(some Value.none, some Value.none)])
    ∧ Value.intList [] ≠ Value.none := by
  cases m <;>
    refine ⟨?_, ?_, ?_, by decide⟩ <;>
      simp +decide [asreviewMain, reviewOracleCLI, reviewSimulateCLI,
        modeString, callPath, callKwargs, parseArgs, parseLoop, h, specsFor,
        commonSpecsHead, commonSpecsTail, simulateOnlySpecs, finalValue,
        findSpec, datasetOf, kwargsOf, List.lookup, List.mapM,
        List.mapM.loop]

/-- Witness for C10 at oracle mode and the concrete path `data.csv`. -/
theorem C10_empty_prior_vs_absent_witness :
    looksLikeOption "data.csv" = false
    ∧ (((asreviewMain ["asreview", modeString Mode.oracle, "data.csv",
          "--prior_included"]).calls.map
          (fun c => (callPath c, (callKwargs c).lookup "prior_included"))
        = [("data.csv", some (Value.intList []))])
      ∧ ((asreviewMain ["asreview", modeString Mode.oracle, "data.csv",
          "--prior_excluded"]).calls.map
          (fun c => (callPath c, (callKwargs c).lookup "prior_excluded"))
        = [("data.csv", some (Value.intList []))])
      ∧ ((asreviewMain ["asreview", modeString Mode.oracle, "data.csv"]).calls.map
          (fun c => ((callKwargs c).lookup "prior_included",
            (callKwargs c).lookup "prior_excluded"))
        = [(some Value.none, some Value.none)])
      ∧ Value.intList [] ≠ Value.none) :=
  ⟨by decide, C10_empty_prior_vs_absent Mode.oracle "data.csv" (by decide)⟩

end ASReview
